import Mathlib

/-!
Verification of the PaprWork memory-proxy route handlers
(`src/app/api/memory/route.ts`) and the image-artifact clipboard action
(`src/lib/types.ts`), as a shallow embedding in Lean 4.

Modelling conventions:
* JavaScript `string | undefined | null` values are `Option String`; the
  JS falsiness test `!x` on such a value is `strFalsy`.
* A JS object used as an open string-keyed bag (`customMetadata`) is an
  association list `JsObject` with first-key-wins lookup; the spread
  `\x7b...base, k: v\x7d` is `objSet` (override in place, append if absent).
* `process.env` is an explicit `Env` record; `throw` is `Except.error`.
* The remote SDK (`client.memory.add` etc.) is an external collaborator:
  each handler takes the remote call's outcome as an `Except String String`
  parameter (error = the call rejected with that exception text), and
  returns, besides the HTTP response, a trace recording whether the client
  was constructed and, when the remote call was reached, the exact
  parameter object passed to it.
-/

/-- JS falsiness of a `string | undefined | null` value: `undefined`, `null`
and the empty string are falsy. -/
def strFalsy : Option String → Bool
  | none => true
  | some s => s = ""

/-- JS `x || d` on a `string | undefined | null` value `x`. -/
def jsOrStr (x : Option String) (d : String) : String :=
  match x with
  | none => d
  | some s => if s = "" then d else s

/-- JS `String.prototype.replace` with a string pattern replaces only the
first occurrence. -/
def replaceFirst (s pat rep : String) : String :=
  match s.splitOn pat with
  | [] => s
  | x :: rest =>
    match rest with
    | [] => s
    | y :: more => x ++ rep ++ String.intercalate pat (y :: more)

/-- A JS object used as an open string-keyed map, in insertion order. -/
abbrev JsObject := List (String × String)

/-- Property lookup on a `JsObject` (first matching key wins; keys are
unique in any object coming from JS). -/
def objGet : JsObject → String → Option String
  | [], _ => none
  | (k', v') :: rest, k => if k' = k then some v' else objGet rest k

/-- JS object spread-with-override `\x7b...o, k: v\x7d`: the value at `k` is
replaced in place when present, otherwise the pair is appended. -/
def objSet : JsObject → String → String → JsObject
  | [], k, v => [(k, v)]
  | (k', v') :: rest, k, v =>
    if k' = k then (k, v) :: rest else (k', v') :: objSet rest k v

/-- The environment variables consumed by `getPaprClient`. -/
structure Env where
  PAPR_MEMORY_API_KEY : Option String
  PAPR_MEMORY_API_URL : Option String
deriving DecidableEq

/-- The configuration held by a constructed `Papr` client. -/
structure PaprClient where
  xAPIKey : String
  baseURL : String
deriving DecidableEq

/-- `getPaprClient` from `route.ts`: throws when the API key is absent,
defaults and scheme-normalizes the base URL. -/
def getPaprClient (env : Env) : Except String PaprClient :=
  let apiKey := env.PAPR_MEMORY_API_KEY
  if strFalsy apiKey then
    Except.error "PAPR_MEMORY_API_KEY is not defined"
  else
    let baseURL := jsOrStr env.PAPR_MEMORY_API_URL "https://memory.papr.ai"
    let secureBaseURL :=
      if baseURL.startsWith "https://" then baseURL
      else "https://" ++ replaceFirst baseURL "http://" ""
    Except.ok { xAPIKey := apiKey.getD "", baseURL := secureBaseURL }

/-- The session user (`session.user`). -/
structure SessionUser where
  id : Option String
deriving DecidableEq

/-- The auth session (`await auth()` result, when non-null). -/
structure Session where
  user : Option SessionUser
deriving DecidableEq

/-- The guard `!session || !session.user || !session.user.id` passes
exactly when this returns `some id`; the empty string id is falsy in JS. -/
def sessionUserId : Option Session → Option String
  | none => none
  | some s =>
    match s.user with
    | none => none
    | some u =>
      match u.id with
      | none => none
      | some i => if i = "" then none else some i

/-- A JSON response body: the `\x7b success: true, data \x7d` envelope or the
`\x7b error: msg \x7d` envelope. -/
inductive ResponseBody where
  | success (data : String)
  | error (msg : String)
deriving DecidableEq

/-- An HTTP response as produced by `NextResponse.json`. -/
structure HttpResponse where
  status : Nat
  body : ResponseBody
deriving DecidableEq

/-- `NextResponse.json(\x7b error: msg \x7d, \x7b status \x7d)`. -/
def jsonError (status : Nat) (msg : String) : HttpResponse :=
  { status := status, body := ResponseBody.error msg }

/-- `NextResponse.json(\x7b success: true, data \x7d)` (status 200 implicit). -/
def jsonSuccess (data : String) : HttpResponse :=
  { status := 200, body := ResponseBody.success data }

/-- The client-supplied `metadata` object of a Create request, with the
recognized fields (all optional) plus the open `customMetadata` bag. -/
structure ClientMetadata where
  sourceType : Option String := none
  user_id : Option String := none
  external_user_id : Option String := none
  createdAt : Option String := none
  sourceUrl : Option String := none
  conversationId : Option String := none
  topics : Option (List String) := none
  emojiTags : Option (List String) := none
  hierarchical_structures : Option String := none
  workspace_id : Option String := none
  customMetadata : Option JsObject := none
deriving DecidableEq

/-- The `MemoryMetadata` value constructed by `POST` (lines 43-64 of
`route.ts`). `emojiTags` stands for the JS field name `emoji tags`. -/
structure MemoryMetadata where
  sourceType : String
  user_id : String
  external_user_id : String
  createdAt : String
  sourceUrl : Option String
  conversationId : Option String
  topics : List String
  emojiTags : List String
  hierarchical_structures : Option String
  workspace_id : Option String
  customMetadata : JsObject
deriving DecidableEq

/-- The construction of `memoryMetadata` in `POST`: identity fields come
from the session, `customMetadata` is the client bag spread then overridden
with `api_source` and `app_user_id`, `topics` and `emoji tags` default to
`[]` (a JS array, even empty, is truthy, so a supplied array is kept). -/
def buildMemoryMetadata (uid now : String) (metadata : ClientMetadata) : MemoryMetadata :=
  let customBase := metadata.customMetadata.getD []
  { sourceType := jsOrStr metadata.sourceType "PaprChat"
    user_id := uid
    external_user_id := uid
    createdAt := jsOrStr metadata.createdAt now
    sourceUrl := metadata.sourceUrl
    conversationId := metadata.conversationId
    topics := metadata.topics.getD []
    emojiTags := metadata.emojiTags.getD []
    hierarchical_structures := metadata.hierarchical_structures
    workspace_id := metadata.workspace_id
    customMetadata := objSet (objSet customBase "api_source" "memory_route") "app_user_id" uid }

/-- `Papr.MemoryAddParams`: the parameter object passed to
`client.memory.add`. -/
structure MemoryAddParams where
  content : String
  type : String
  metadata : MemoryMetadata
deriving DecidableEq

/-- The JSON body of a Create request after
`const \x7b content, type = 'text', metadata = \x7b\x7d \x7d = await request.json()`;
destructuring defaults apply only to absent fields. -/
structure PostBody where
  content : Option String := none
  type : Option String := none
  metadata : Option ClientMetadata := none
deriving DecidableEq

/-- Observable effects of one `POST` run: whether `getPaprClient()` was
invoked, and the parameters passed to `client.memory.add` when reached. -/
structure PostTrace where
  clientConstructed : Bool
  call : Option MemoryAddParams
deriving DecidableEq

/-- The `POST` handler (Create). `body` is the outcome of
`await request.json()` (error = unparseable JSON, which throws inside the
`try`), `addResult` the outcome of the remote `client.memory.add` call. -/
def POST (env : Env) (session : Option Session) (body : Except String PostBody)
    (now : String) (addResult : Except String String) : HttpResponse × PostTrace :=
  match sessionUserId session with
  | none => (jsonError 401 "Unauthorized", { clientConstructed := false, call := none })
  | some uid =>
    match body with
    | Except.error _ =>
      (jsonError 500 "Failed to add memory", { clientConstructed := false, call := none })
    | Except.ok b =>
      if strFalsy b.content then
        (jsonError 400 "Content is required", { clientConstructed := false, call := none })
      else
        match getPaprClient env with
        | Except.error _ =>
          (jsonError 500 "Failed to add memory", { clientConstructed := true, call := none })
        | Except.ok _client =>
          let memoryParams : MemoryAddParams :=
            { content := b.content.getD ""
              type := b.type.getD "text"
              metadata := buildMemoryMetadata uid now (b.metadata.getD {}) }
          match addResult with
          | Except.error _ =>
            (jsonError 500 "Failed to add memory",
             { clientConstructed := true, call := some memoryParams })
          | Except.ok data =>
            (jsonSuccess data, { clientConstructed := true, call := some memoryParams })

/-- The query parameters of a Search request (`url.searchParams.get`
returns `null` for an absent parameter). -/
structure GetQuery where
  query : Option String := none
  max_memories : Option String := none
deriving DecidableEq

/-- What one `client.memory.search` invocation receives: the
`MemorySearchParams` object plus the `max_memories` request option. -/
structure SearchCall where
  query : String
  user_id : String
  max_memories : Nat
deriving DecidableEq

/-- Observable effects of one `GET` run. -/
structure GetTrace where
  clientConstructed : Bool
  call : Option SearchCall
deriving DecidableEq

/-- The `GET` handler (Search). `searchResult` is the outcome of the remote
`client.memory.search` call. The local `maxMemories` variable is computed
as in the source and then never used: the call hard-codes 25. -/
def GET (env : Env) (session : Option Session) (q : GetQuery)
    (searchResult : Except String String) : HttpResponse × GetTrace :=
  match sessionUserId session with
  | none => (jsonError 401 "Unauthorized", { clientConstructed := false, call := none })
  | some uid =>
    let _maxMemories := jsOrStr q.max_memories "25"
    if strFalsy q.query then
      (jsonError 400 "Query parameter is required", { clientConstructed := false, call := none })
    else
      match getPaprClient env with
      | Except.error _ =>
        (jsonError 500 "Failed to search memories", { clientConstructed := true, call := none })
      | Except.ok _client =>
        let searchCall : SearchCall :=
          { query := q.query.getD "", user_id := uid, max_memories := 25 }
        match searchResult with
        | Except.error _ =>
          (jsonError 500 "Failed to search memories",
           { clientConstructed := true, call := some searchCall })
        | Except.ok data =>
          (jsonSuccess data, { clientConstructed := true, call := some searchCall })

/-- The query parameters of a Delete request. -/
structure DeleteQuery where
  id : Option String := none
deriving DecidableEq

/-- Observable effects of one `DELETE` run; `call` is the memory id passed
to `client.memory.delete` when reached. -/
structure DeleteTrace where
  clientConstructed : Bool
  call : Option String
deriving DecidableEq

/-- The `DELETE` handler. `deleteResult` is the outcome of the remote
`client.memory.delete` call. -/
def DELETE (env : Env) (session : Option Session) (q : DeleteQuery)
    (deleteResult : Except String String) : HttpResponse × DeleteTrace :=
  match sessionUserId session with
  | none => (jsonError 401 "Unauthorized", { clientConstructed := false, call := none })
  | some _uid =>
    if strFalsy q.id then
      (jsonError 400 "Memory ID is required", { clientConstructed := false, call := none })
    else
      match getPaprClient env with
      | Except.error _ =>
        (jsonError 500 "Failed to delete memory", { clientConstructed := true, call := none })
      | Except.ok _client =>
        match deleteResult with
        | Except.error _ =>
          (jsonError 500 "Failed to delete memory",
           { clientConstructed := true, call := some (q.id.getD "") })
        | Except.ok data =>
          (jsonSuccess data, { clientConstructed := true, call := some (q.id.getD "") })

/-- The JSON body of an Update request after
`const \x7b memory_id, content, metadata, type \x7d = await request.json()`. -/
structure PutBody where
  memory_id : Option String := none
  content : Option String := none
  metadata : Option ClientMetadata := none
  type : Option String := none
deriving DecidableEq

/-- What one `client.memory.update` invocation receives: the memory id and
the `\x7b content, metadata, type \x7d` object passed through unmodified
(no identity forcing, unlike Create). -/
structure UpdateCall where
  memory_id : String
  content : Option String
  metadata : Option ClientMetadata
  type : Option String
deriving DecidableEq

/-- Observable effects of one `PUT` run. -/
structure PutTrace where
  clientConstructed : Bool
  call : Option UpdateCall
deriving DecidableEq

/-- The `PUT` handler (Update). `body` is the outcome of
`await request.json()`, `updateResult` the outcome of the remote
`client.memory.update` call. -/
def PUT (env : Env) (session : Option Session) (body : Except String PutBody)
    (updateResult : Except String String) : HttpResponse × PutTrace :=
  match sessionUserId session with
  | none => (jsonError 401 "Unauthorized", { clientConstructed := false, call := none })
  | some _uid =>
    match body with
    | Except.error _ =>
      (jsonError 500 "Failed to update memory", { clientConstructed := false, call := none })
    | Except.ok b =>
      if strFalsy b.memory_id then
        (jsonError 400 "Memory ID is required", { clientConstructed := false, call := none })
      else
        match getPaprClient env with
        | Except.error _ =>
          (jsonError 500 "Failed to update memory", { clientConstructed := true, call := none })
        | Except.ok _client =>
          let updateCall : UpdateCall :=
            { memory_id := b.memory_id.getD ""
              content := b.content
              metadata := b.metadata
              type := b.type }
          match updateResult with
          | Except.error _ =>
            (jsonError 500 "Failed to update memory",
             { clientConstructed := true, call := some updateCall })
          | Except.ok data =>
            (jsonSuccess data, { clientConstructed := true, call := some updateCall })

/-!
The image artifact (`src/lib/types.ts`). Only the copy-to-clipboard action
has claim-relevant behaviour; its click handler synchronously sets the
image source, registers an `onload` callback, and fires the success toast.
The `onload` callback (draw to canvas, `toBlob`, clipboard write when a
blob was produced) runs only later, and only if the image loads.
-/

/-- One observable DOM/browser effect of the copy action. -/
inductive Effect where
  | setImgSrc (src : String)
  | toastSuccess (msg : String)
  | drawCanvas
  | clipboardWrite
deriving DecidableEq

/-- The synchronous body of the copy action's `onClick`: in source order it
creates the image, sets `img.src`, assigns `img.onload` (registration only)
and calls `toast.success`. -/
def copyClickSync (content : String) : List Effect :=
  [Effect.setImgSrc ("data:image/png;base64," ++ content),
   Effect.toastSuccess "Copied image to clipboard!"]

/-- The `img.onload` callback body: draws to the canvas, then the `toBlob`
callback writes to the clipboard only when a blob was produced. -/
def copyOnloadEffects (blobProduced : Bool) : List Effect :=
  Effect.drawCanvas :: (if blobProduced then [Effect.clipboardWrite] else [])

/-- The whole effect trace of one click: the synchronous effects, then the
`onload` effects when the image load succeeds (nothing otherwise). -/
def copyClickTrace (content : String) (loaded blobProduced : Bool) : List Effect :=
  copyClickSync content ++ (if loaded then copyOnloadEffects blobProduced else [])

/-- `isDisabled` of the previous-version action. -/
def prevActionDisabled (currentVersionIndex : Nat) : Bool :=
  currentVersionIndex = 0

/-- `isDisabled` of the next-version action. -/
def nextActionDisabled (isCurrentVersion : Bool) : Bool :=
  isCurrentVersion

/-!
Concrete sample values used by the witness theorems.
-/

/-- An environment with the API key configured. -/
def envOk : Env := { PAPR_MEMORY_API_KEY := some "test-key", PAPR_MEMORY_API_URL := none }

/-- An environment missing the API key. -/
def envNoKey : Env := { PAPR_MEMORY_API_KEY := none, PAPR_MEMORY_API_URL := none }

/-- A valid session for the user `alice`. -/
def sessionAlice : Option Session := some { user := some { id := some "alice" } }

/-- A client metadata object that tries to spoof the identity fields and
the `api_source` tag. -/
def spoofMetadata : ClientMetadata :=
  { user_id := some "mallory"
    external_user_id := some "mallory"
    topics := some ["a", "b"]
    customMetadata := some [("api_source", "spoofed"), ("note", "x")] }

/-- A Create body carrying `spoofMetadata`. -/
def spoofPostBody : PostBody := { content := some "hello", metadata := some spoofMetadata }

/-- A Search query with a caller-supplied `max_memories`. -/
def sampleGetQuery : GetQuery := { query := some "cats", max_memories := some "7" }

/-- A Delete query naming a memory. -/
def sampleDeleteQuery : DeleteQuery := { id := some "mem-1" }

/-- An Update body naming a memory. -/
def samplePutBody : PutBody := { memory_id := some "mem-1", content := some "new text" }

/-!
Lemmas about JS-object spread-with-override.
-/

theorem objGet_objSet_same (o : JsObject) (k v : String) :
    objGet (objSet o k v) k = some v := by
  induction o with
  | nil => simp [objSet, objGet]
  | cons p rest ih =>
    obtain ⟨k', v'⟩ := p
    by_cases h : k' = k
    · simp [objSet, objGet, h]
    · simp [objSet, objGet, h, ih]

theorem objGet_objSet_other (o : JsObject) (k v k2 : String) (h : k ≠ k2) :
    objGet (objSet o k v) k2 = objGet o k2 := by
  induction o with
  | nil => simp [objSet, objGet, h]
  | cons p rest ih =>
    obtain ⟨k', v'⟩ := p
    by_cases hk : k' = k
    · subst hk
      simp [objSet, objGet, h]
    · by_cases hk2 : k' = k2
      · simp [objSet, objGet, hk, hk2, Ne.symm h]
      · simp [objSet, objGet, hk, hk2, ih]

/-- The constructed metadata always carries the `api_source` tag of this
route, whatever the client put in `customMetadata`. -/
theorem buildMemoryMetadata_api_source (uid now : String) (m : ClientMetadata) :
    objGet (buildMemoryMetadata uid now m).customMetadata "api_source" = some "memory_route" := by
  simp only [buildMemoryMetadata]
  rw [objGet_objSet_other _ _ _ _ (by decide)]
  exact objGet_objSet_same _ _ _

/-- C1: every Create request with a valid session and non-empty content
passes to the remote add call a metadata object whose `user_id` and
`external_user_id` are the authenticated caller's id and whose
`customMetadata.api_source` is `"memory_route"`, for every client-supplied
metadata object, including one attempting to set those fields. -/
theorem c1_create_metadata_forces_identity
    (env : Env) (session : Option Session) (b : PostBody) (now : String)
    (addResult : Except String String) (uid : String)
    (hs : sessionUserId session = some uid)
    (hc : strFalsy b.content = false)
    (hk : strFalsy env.PAPR_MEMORY_API_KEY = false) :
    ∃ p : MemoryAddParams,
      (POST env session (Except.ok b) now addResult).2.call = some p ∧
      p.metadata.user_id = uid ∧
      p.metadata.external_user_id = uid ∧
      objGet p.metadata.customMetadata "api_source" = some "memory_route" := by
  refine ⟨{ content := b.content.getD ""
            type := b.type.getD "text"
            metadata := buildMemoryMetadata uid now (b.metadata.getD {}) }, ?_, ?_, ?_, ?_⟩
  · simp only [POST, hs, hc, getPaprClient, hk]
    cases addResult <;> simp
  · simp [buildMemoryMetadata]
  · simp [buildMemoryMetadata]
  · exact buildMemoryMetadata_api_source _ _ _

/-- C1 witness: concrete spoofing attempt against `POST`. -/
theorem c1_create_metadata_forces_identity_witness :
    ∃ p : MemoryAddParams,
      (POST envOk sessionAlice (Except.ok spoofPostBody) "2024-01-01T00:00:00Z"
        (Except.ok "resp")).2.call = some p ∧
      p.metadata.user_id = "alice" ∧
      p.metadata.external_user_id = "alice" ∧
      objGet p.metadata.customMetadata "api_source" = some "memory_route" :=
  c1_create_metadata_forces_identity envOk sessionAlice spoofPostBody "2024-01-01T00:00:00Z"
    (Except.ok "resp") "alice" (by decide) (by decide) (by decide)

/-- C2: for each of the four operations, a rejected remote call yields
HTTP 500 with exactly that operation's fixed generic error body; the body
is a constant independent of the exception text `e`, so the exception text
is never leaked to the caller. -/
theorem c2_remote_failure_masked
    (env : Env) (session : Option Session) (uid : String)
    (hs : sessionUserId session = some uid)
    (hk : strFalsy env.PAPR_MEMORY_API_KEY = false)
    (b : PostBody) (hc : strFalsy b.content = false) (now : String)
    (q : GetQuery) (hq : strFalsy q.query = false)
    (dq : DeleteQuery) (hid : strFalsy dq.id = false)
    (pb : PutBody) (hm : strFalsy pb.memory_id = false)
    (e : String) :
    (POST env session (Except.ok b) now (Except.error e)).1 =
      jsonError 500 "Failed to add memory" ∧
    (GET env session q (Except.error e)).1 =
      jsonError 500 "Failed to search memories" ∧
    (DELETE env session dq (Except.error e)).1 =
      jsonError 500 "Failed to delete memory" ∧
    (PUT env session (Except.ok pb) (Except.error e)).1 =
      jsonError 500 "Failed to update memory" := by
  refine ⟨?_, ?_, ?_, ?_⟩ <;>
    simp [POST, GET, DELETE, PUT, hs, hc, hq, hid, hm, getPaprClient, hk]

/-- C2 witness: a concrete remote failure on each operation. -/
theorem c2_remote_failure_masked_witness :
    (POST envOk sessionAlice (Except.ok spoofPostBody) "2024-01-01T00:00:00Z"
      (Except.error "ECONNREFUSED secret-host")).1 =
      jsonError 500 "Failed to add memory" ∧
    (GET envOk sessionAlice sampleGetQuery (Except.error "ECONNREFUSED secret-host")).1 =
      jsonError 500 "Failed to search memories" ∧
    (DELETE envOk sessionAlice sampleDeleteQuery (Except.error "ECONNREFUSED secret-host")).1 =
      jsonError 500 "Failed to delete memory" ∧
    (PUT envOk sessionAlice (Except.ok samplePutBody) (Except.error "ECONNREFUSED secret-host")).1 =
      jsonError 500 "Failed to update memory" :=
  c2_remote_failure_masked envOk sessionAlice "alice" (by decide) (by decide)
    spoofPostBody (by decide) "2024-01-01T00:00:00Z"
    sampleGetQuery (by decide) sampleDeleteQuery (by decide) samplePutBody (by decide)
    "ECONNREFUSED secret-host"

/-- C3: when the session is absent or lacks a user id, each of the four
handlers answers HTTP 401 with body error Unauthorized, constructs no
client and performs no remote call. -/
theorem c3_unauthorized_no_remote_call
    (env : Env) (session : Option Session)
    (hs : sessionUserId session = none)
    (body : Except String PostBody) (now : String) (addResult : Except String String)
    (q : GetQuery) (searchResult : Except String String)
    (dq : DeleteQuery) (deleteResult : Except String String)
    (pb : Except String PutBody) (updateResult : Except String String) :
    POST env session body now addResult =
      (jsonError 401 "Unauthorized", { clientConstructed := false, call := none }) ∧
    GET env session q searchResult =
      (jsonError 401 "Unauthorized", { clientConstructed := false, call := none }) ∧
    DELETE env session dq deleteResult =
      (jsonError 401 "Unauthorized", { clientConstructed := false, call := none }) ∧
    PUT env session pb updateResult =
      (jsonError 401 "Unauthorized", { clientConstructed := false, call := none }) := by
  refine ⟨?_, ?_, ?_, ?_⟩ <;> simp [POST, GET, DELETE, PUT, hs]

/-- C3 witness: a null session on each operation. -/
theorem c3_unauthorized_no_remote_call_witness :
    POST envOk none (Except.ok spoofPostBody) "2024-01-01T00:00:00Z" (Except.ok "r") =
      (jsonError 401 "Unauthorized", { clientConstructed := false, call := none }) ∧
    GET envOk none sampleGetQuery (Except.ok "r") =
      (jsonError 401 "Unauthorized", { clientConstructed := false, call := none }) ∧
    DELETE envOk none sampleDeleteQuery (Except.ok "r") =
      (jsonError 401 "Unauthorized", { clientConstructed := false, call := none }) ∧
    PUT envOk none (Except.ok samplePutBody) (Except.ok "r") =
      (jsonError 401 "Unauthorized", { clientConstructed := false, call := none }) :=
  c3_unauthorized_no_remote_call envOk none rfl
    (Except.ok spoofPostBody) "2024-01-01T00:00:00Z" (Except.ok "r")
    sampleGetQuery (Except.ok "r") sampleDeleteQuery (Except.ok "r")
    (Except.ok samplePutBody) (Except.ok "r")

/-- C4: an authenticated Search with non-empty query always asks the
remote call for a cap of exactly 25, and the handler's entire outcome is
identical for any two values of the caller-supplied `max_memories`. -/
theorem c4_search_cap_always_25
    (env : Env) (session : Option Session) (uid : String)
    (hs : sessionUserId session = some uid)
    (qs : Option String) (hq : strFalsy qs = false)
    (hk : strFalsy env.PAPR_MEMORY_API_KEY = false)
    (a b : Option String) (searchResult : Except String String) :
    (∃ call : SearchCall,
      (GET env session { query := qs, max_memories := a } searchResult).2.call = some call ∧
      call.max_memories = 25) ∧
    GET env session { query := qs, max_memories := a } searchResult =
      GET env session { query := qs, max_memories := b } searchResult := by
  constructor
  · refine ⟨{ query := qs.getD "", user_id := uid, max_memories := 25 }, ?_, rfl⟩
    simp only [GET, hs, hq, getPaprClient, hk]
    cases searchResult <;> simp
  · rfl

/-- C4 witness: two Searches differing only in `max_memories`. -/
theorem c4_search_cap_always_25_witness :
    (∃ call : SearchCall,
      (GET envOk sessionAlice { query := some "cats", max_memories := some "7" }
        (Except.ok "r")).2.call = some call ∧
      call.max_memories = 25) ∧
    GET envOk sessionAlice { query := some "cats", max_memories := some "7" }
        (Except.ok "r") =
      GET envOk sessionAlice { query := some "cats", max_memories := some "9999" }
        (Except.ok "r") :=
  c4_search_cap_always_25 envOk sessionAlice "alice" (by decide) (some "cats") (by decide)
    (by decide) (some "7") (some "9999") (Except.ok "r")

/-- C5 counterexample: with the API key absent, a valid session and valid
content, `POST` answers the caller with a handled HTTP 500 response
carrying the generic error body — client construction does throw, but the
throw is caught by the handler's own catch, so the absence is NOT surfaced
as an unhandled initialization failure. -/
theorem c5_key_absent_counterexample :
    getPaprClient envNoKey = Except.error "PAPR_MEMORY_API_KEY is not defined" ∧
    POST envNoKey sessionAlice (Except.ok spoofPostBody) "2024-01-01T00:00:00Z"
        (Except.ok "resp") =
      (jsonError 500 "Failed to add memory", { clientConstructed := true, call := none }) := by
  constructor
  · rfl
  · decide

/-- C5 amended: if the API key environment variable is absent, constructing
the service client throws, and because construction happens inside each
handler's try block the failure is caught and surfaced to the caller as a
handled HTTP 500 response with the operation's generic error message, with
no remote call performed. -/
theorem c5_amended_key_absent_handled_500
    (env : Env) (hkey : strFalsy env.PAPR_MEMORY_API_KEY = true)
    (session : Option Session) (uid : String) (hs : sessionUserId session = some uid)
    (b : PostBody) (hc : strFalsy b.content = false) (now : String)
    (addResult : Except String String)
    (q : GetQuery) (hq : strFalsy q.query = false) (searchResult : Except String String)
    (dq : DeleteQuery) (hid : strFalsy dq.id = false) (deleteResult : Except String String)
    (pb : PutBody) (hm : strFalsy pb.memory_id = false) (updateResult : Except String String) :
    getPaprClient env = Except.error "PAPR_MEMORY_API_KEY is not defined" ∧
    POST env session (Except.ok b) now addResult =
      (jsonError 500 "Failed to add memory", { clientConstructed := true, call := none }) ∧
    GET env session q searchResult =
      (jsonError 500 "Failed to search memories", { clientConstructed := true, call := none }) ∧
    DELETE env session dq deleteResult =
      (jsonError 500 "Failed to delete memory", { clientConstructed := true, call := none }) ∧
    PUT env session (Except.ok pb) updateResult =
      (jsonError 500 "Failed to update memory", { clientConstructed := true, call := none }) := by
  refine ⟨?_, ?_, ?_, ?_, ?_⟩ <;>
    simp [getPaprClient, POST, GET, DELETE, PUT, hs, hc, hq, hid, hm, hkey]

/-- C5 amended witness: the key-less environment on each operation. -/
theorem c5_amended_key_absent_handled_500_witness :
    getPaprClient envNoKey = Except.error "PAPR_MEMORY_API_KEY is not defined" ∧
    POST envNoKey sessionAlice (Except.ok spoofPostBody) "2024-01-01T00:00:00Z"
        (Except.ok "r") =
      (jsonError 500 "Failed to add memory", { clientConstructed := true, call := none }) ∧
    GET envNoKey sessionAlice sampleGetQuery (Except.ok "r") =
      (jsonError 500 "Failed to search memories", { clientConstructed := true, call := none }) ∧
    DELETE envNoKey sessionAlice sampleDeleteQuery (Except.ok "r") =
      (jsonError 500 "Failed to delete memory", { clientConstructed := true, call := none }) ∧
    PUT envNoKey sessionAlice (Except.ok samplePutBody) (Except.ok "r") =
      (jsonError 500 "Failed to update memory", { clientConstructed := true, call := none }) :=
  c5_amended_key_absent_handled_500 envNoKey rfl sessionAlice "alice" (by decide)
    spoofPostBody (by decide) "2024-01-01T00:00:00Z" (Except.ok "r")
    sampleGetQuery (by decide) (Except.ok "r")
    sampleDeleteQuery (by decide) (Except.ok "r")
    samplePutBody (by decide) (Except.ok "r")

/-- C6: an authenticated Create whose parsed body has an absent or empty
`content` answers HTTP 400 with body error Content is required, constructs
no client and performs no remote call. -/
theorem c6_create_empty_content_400
    (env : Env) (session : Option Session) (uid : String)
    (hs : sessionUserId session = some uid)
    (b : PostBody) (hc : strFalsy b.content = true)
    (now : String) (addResult : Except String String) :
    POST env session (Except.ok b) now addResult =
      (jsonError 400 "Content is required", { clientConstructed := false, call := none }) := by
  simp [POST, hs, hc]

/-- C6 witness: an absent `content` field. -/
theorem c6_create_empty_content_400_witness :
    POST envOk sessionAlice (Except.ok {}) "2024-01-01T00:00:00Z" (Except.ok "r") =
      (jsonError 400 "Content is required", { clientConstructed := false, call := none }) :=
  c6_create_empty_content_400 envOk sessionAlice "alice" (by decide) {} (by decide)
    "2024-01-01T00:00:00Z" (Except.ok "r")

/-- C7: an authenticated Delete with no `id` query parameter, and an
authenticated Update whose body has no `memory_id`, both answer HTTP 400
with body error Memory ID is required, construct no client and perform no
remote call. -/
theorem c7_missing_memory_id_400
    (env : Env) (session : Option Session) (uid : String)
    (hs : sessionUserId session = some uid)
    (dq : DeleteQuery) (hid : dq.id = none) (deleteResult : Except String String)
    (pb : PutBody) (hm : pb.memory_id = none) (updateResult : Except String String) :
    DELETE env session dq deleteResult =
      (jsonError 400 "Memory ID is required", { clientConstructed := false, call := none }) ∧
    PUT env session (Except.ok pb) updateResult =
      (jsonError 400 "Memory ID is required", { clientConstructed := false, call := none }) := by
  constructor <;> simp [DELETE, PUT, hs, hid, hm, strFalsy]

/-- C7 witness: absent identifiers on Delete and Update. -/
theorem c7_missing_memory_id_400_witness :
    DELETE envOk sessionAlice {} (Except.ok "r") =
      (jsonError 400 "Memory ID is required", { clientConstructed := false, call := none }) ∧
    PUT envOk sessionAlice (Except.ok {}) (Except.ok "r") =
      (jsonError 400 "Memory ID is required", { clientConstructed := false, call := none }) :=
  c7_missing_memory_id_400 envOk sessionAlice "alice" (by decide) {} rfl (Except.ok "r")
    {} rfl (Except.ok "r")

/-- C8: an authenticated Create passes the client-supplied
`metadata.topics` list downstream exactly, element for element in order,
and passes the empty list when `topics` is absent. -/
theorem c8_topics_roundtrip
    (env : Env) (session : Option Session) (uid : String)
    (hs : sessionUserId session = some uid)
    (b : PostBody) (hc : strFalsy b.content = false)
    (hk : strFalsy env.PAPR_MEMORY_API_KEY = false)
    (now : String) (addResult : Except String String) :
    ∃ p : MemoryAddParams,
      (POST env session (Except.ok b) now addResult).2.call = some p ∧
      (∀ ts : List String, (b.metadata.getD {}).topics = some ts → p.metadata.topics = ts) ∧
      ((b.metadata.getD {}).topics = none → p.metadata.topics = []) := by
  refine ⟨{ content := b.content.getD ""
            type := b.type.getD "text"
            metadata := buildMemoryMetadata uid now (b.metadata.getD {}) }, ?_, ?_, ?_⟩
  · simp only [POST, hs, hc, getPaprClient, hk]
    cases addResult <;> simp
  · intro ts hts
    simp [buildMemoryMetadata, hts]
  · intro hts
    simp [buildMemoryMetadata, hts]

/-- C8 witness: a Create supplying `topics = ["a", "b"]`. -/
theorem c8_topics_roundtrip_witness :
    ∃ p : MemoryAddParams,
      (POST envOk sessionAlice (Except.ok spoofPostBody) "2024-01-01T00:00:00Z"
        (Except.ok "r")).2.call = some p ∧
      (∀ ts : List String,
        (spoofPostBody.metadata.getD {}).topics = some ts → p.metadata.topics = ts) ∧
      ((spoofPostBody.metadata.getD {}).topics = none → p.metadata.topics = []) :=
  c8_topics_roundtrip envOk sessionAlice "alice" (by decide) spoofPostBody (by decide)
    (by decide) "2024-01-01T00:00:00Z" (Except.ok "r")

/-- C9: a Create or Update with a valid session whose body does not parse
as JSON answers HTTP 500 with that operation's generic error message (not
HTTP 400 and not a field-specific message), because body parsing happens
inside the same try block as the remote call; no client is constructed and
no remote call is performed. -/
theorem c9_unparseable_body_500
    (env : Env) (session : Option Session) (uid : String)
    (hs : sessionUserId session = some uid)
    (e1 e2 now : String) (addResult updateResult : Except String String) :
    POST env session (Except.error e1) now addResult =
      (jsonError 500 "Failed to add memory", { clientConstructed := false, call := none }) ∧
    PUT env session (Except.error e2) updateResult =
      (jsonError 500 "Failed to update memory", { clientConstructed := false, call := none }) := by
  constructor <;> simp [POST, PUT, hs]

/-- C9 witness: a concrete JSON parse failure on Create and Update. -/
theorem c9_unparseable_body_500_witness :
    POST envOk sessionAlice (Except.error "SyntaxError: Unexpected token")
        "2024-01-01T00:00:00Z" (Except.ok "r") =
      (jsonError 500 "Failed to add memory", { clientConstructed := false, call := none }) ∧
    PUT envOk sessionAlice (Except.error "SyntaxError: Unexpected token") (Except.ok "r") =
      (jsonError 500 "Failed to update memory", { clientConstructed := false, call := none }) :=
  c9_unparseable_body_500 envOk sessionAlice "alice" (by decide)
    "SyntaxError: Unexpected token" "SyntaxError: Unexpected token"
    "2024-01-01T00:00:00Z" (Except.ok "r") (Except.ok "r")

/-- C10: the copy action's success toast is emitted in the synchronous part
of the click handler, where no clipboard write ever happens; the toast is
in the trace for every load/blob outcome, while the clipboard write is
absent whenever the image fails to load or no blob is produced. -/
theorem c10_copy_toast_fires_before_async
    (content : String) (loaded blobProduced : Bool) :
    Effect.toastSuccess "Copied image to clipboard!" ∈ copyClickSync content ∧
    Effect.clipboardWrite ∉ copyClickSync content ∧
    Effect.toastSuccess "Copied image to clipboard!" ∈
      copyClickTrace content loaded blobProduced ∧
    Effect.clipboardWrite ∉ copyClickTrace content false blobProduced ∧
    Effect.clipboardWrite ∉ copyClickTrace content loaded false := by
  refine ⟨?_, ?_, ?_, ?_, ?_⟩ <;>
    cases loaded <;> cases blobProduced <;>
      simp [copyClickSync, copyClickTrace, copyOnloadEffects]
